import Mathlib

/-!
Verification development for the document-conversion core of the repository:
the MIME resolver (`mime_utils.py`), the conversion service
(`document_converter.py`) and the access guard in front of the agent-facing
`read_file` tool (`mcp_server.py`).

The Python code is shallowly embedded: pure helpers become Lean functions on
`String`/`List Char`; filesystem and external-renderer behaviour is passed in
as explicit oracle parameters; Python exceptions are modelled with the
`Except` monad, a `try/except` block becoming an explicit match on the body's
outcome.
-/

namespace Agentsb

/-! ## Python string primitives

`str.startswith`, `str.split(sep)` and `str.lower`, embedded over `List Char`
so that concrete evaluations reduce well in the kernel. -/

/-- Python `s.startswith(prefix)`. -/
def pyStartsWith (pre s : String) : Bool :=
  List.isPrefixOf pre.data s.data

/-- Python `str.split(sep)` for a one-character separator, on char lists:
`"".split('/') == ['']`, `"/".split('/') == ['', '']`. -/
def splitChar (sep : Char) : List Char → List (List Char)
  | [] => [[]]
  | c :: t =>
    if c = sep then [] :: splitChar sep t
    else
      match splitChar sep t with
      | [] => [[c]]
      | h :: t' => (c :: h) :: t'

/-- Python `str.lower` (ASCII is all the code needs: extensions, MIME types). -/
def pyLower (s : String) : String :=
  String.mk (s.data.map Char.toLower)

/-! ## `os.path.normpath` (POSIX)

Faithful embedding of `posixpath.normpath`: collapse `.` segments and
redundant separators, resolve `x/..` pairs, keep leading `..` segments,
preserve one or exactly-two leading slashes. -/

/-- One step of the `posixpath.normpath` component loop: Python's
`for comp in comps` body, with `initSlashes ≠ 0` standing for the truthiness
of `initial_slashes`. -/
def normStep (initSlashes : Nat) (acc : List (List Char)) (comp : List Char) :
    List (List Char) :=
  if comp = [] ∨ comp = ['.'] then acc
  else if comp ≠ ['.', '.'] ∨ (initSlashes = 0 ∧ acc = []) ∨
      (acc ≠ [] ∧ acc.getLast? = some ['.', '.']) then acc ++ [comp]
  else if acc ≠ [] then acc.dropLast
  else acc

/-- `os.path.normpath(path)` on POSIX. -/
def normpath (path : String) : String :=
  if path = "" then "."
  else
    let cs := path.data
    let initSlashes : Nat :=
      if cs.take 1 = ['/'] then
        if cs.take 2 = ['/', '/'] ∧ cs.take 3 ≠ ['/', '/', '/'] then 2 else 1
      else 0
    let comps := splitChar '/' cs
    let newComps := comps.foldl (normStep initSlashes) []
    let joined := List.replicate initSlashes '/' ++
      List.intercalate ['/'] newComps
    if joined = [] then "." else String.mk joined

/-- Python `os.path.isabs` (POSIX): the path starts with a slash. -/
def isabs (s : String) : Bool :=
  pyStartsWith "/" s

/-! ## MIME resolver (`mime_utils.py`, class `MimeTypeDetector`) -/

/-- `MimeTypeDetector.SUPPORTED_MIME_TYPES`: the explicitly supported exact
MIME types. -/
def SUPPORTED_MIME_TYPES : List String :=
  [ "application/pdf",
    "application/vnd.openxmlformats-officedocument.wordprocessingml.document",
    "application/msword",
    "application/vnd.openxmlformats-officedocument.spreadsheetml.sheet",
    "application/vnd.ms-excel",
    "application/vnd.openxmlformats-officedocument.presentationml.presentation",
    "application/vnd.ms-powerpoint",
    "text/html",
    "text/csv",
    "text/plain",
    "text/markdown",
    "application/json",
    "application/xml",
    "text/xml",
    "image/jpeg",
    "image/png",
    "image/bmp",
    "image/tiff",
    "audio/wav",
    "audio/mpeg",
    "application/zip",
    "application/epub+zip" ]

/-- `MimeTypeDetector.SUPPORTED_BASE_TYPES`: supported wildcard base types. -/
def SUPPORTED_BASE_TYPES : List String :=
  ["text", "image"]

/-- Python `mime_type.split('/')[0]`: the first component of the split
(the whole string when no `/` occurs). -/
def baseType (mime_type : String) : String :=
  String.mk ((splitChar '/' mime_type.data).headD [])

/-- `MimeTypeDetector.is_supported`: exact match against
`SUPPORTED_MIME_TYPES`, else base type against `SUPPORTED_BASE_TYPES`. -/
def is_supported (mime_type : String) : Bool :=
  if mime_type ∈ SUPPORTED_MIME_TYPES then true
  else baseType mime_type ∈ SUPPORTED_BASE_TYPES

/-- `custom_mappings` in `MimeTypeDetector.detect_from_extension`: the
hard-coded fallback extension table. -/
def custom_mappings : List (String × String) :=
  [ (".docx",
     "application/vnd.openxmlformats-officedocument.wordprocessingml.document"),
    (".xlsx",
     "application/vnd.openxmlformats-officedocument.spreadsheetml.sheet"),
    (".pptx",
     "application/vnd.openxmlformats-officedocument.presentationml.presentation") ]

/-- Python `dict.get(key, default)` over an association list. -/
def dictGet (m : List (String × String)) (key default : String) : String :=
  match m.find? (fun kv => kv.1 = key) with
  | some kv => kv.2
  | none => default

/-- `MimeTypeDetector.detect_from_extension`.  The system `mimetypes`
database is external to the repository, so the composite lookup
`mimetypes.guess_type("dummy" + ext)[0]` is passed in as the oracle
`sysTable`; a `none` result is Python's falsy `None`, falling through to the
hard-coded `custom_mappings` and then to `application/octet-stream`. -/
def detect_from_extension (sysTable : String → Option String)
    (file_extension : String) : String :=
  match sysTable file_extension with
  | some mime_type => mime_type
  | none => dictGet custom_mappings (pyLower file_extension)
      "application/octet-stream"

/-! ## Python exceptions and the conversion result shape -/

/-- The Python exception classes the converter's `except` clauses
distinguish, each carrying `str(e)`.  Every constructor is a subclass of
`Exception`, so a bare `except Exception` catches all of them. -/
inductive PyErr where
  | importError (msg : String)
  | permissionError (msg : String)
  | fileNotFoundError (msg : String)
  | otherError (msg : String)
deriving DecidableEq, Repr

/-- Python `str(e)`. -/
def PyErr.str : PyErr → String
  | .importError m => m
  | .permissionError m => m
  | .fileNotFoundError m => m
  | .otherError m => m

/-- The result dictionaries built by `DocumentConverter` and by
`JiraMcpServer._tool_read_file`: each optional field is `some` exactly when
the Python dict carries the corresponding key. -/
structure ConversionResult where
  mime_type : Option String
  filename : Option String
  success : Bool
  markdown : Option String
  error : Option String
  size_bytes : Option Nat
  file_path : Option String
deriving DecidableEq, Repr

/-- A Python `try` block with a single chain of `except` clauses that never
re-raise inside themselves but may (in general) propagate: the body's
exception is handed to the handler. -/
def pyTry (body : Except PyErr ConversionResult)
    (handler : PyErr → Except PyErr ConversionResult) :
    Except PyErr ConversionResult :=
  match body with
  | .ok r => .ok r
  | .error e => handler e

/-! ## Conversion service (`document_converter.py`, class
`DocumentConverter`)

External effects appear as oracle parameters: `avail` is
`MARKITDOWN_AVAILABLE`, `render` is the outcome of
`self._converter.convert(file_stream).text_content` for this call's content
(the markitdown engine declares `text_content` a `str`), and the
size-measurement of a caller-supplied stream is that stream's
tell/seek-to-end/restore outcome. -/

/-- `file_stream: Union[BinaryIO, bytes]`: raw bytes (observable to the
logic only through their length; `io.BytesIO` operations do not raise) or a
caller stream whose tell/seek size measurement may raise. -/
inductive FileContent where
  | bytes (len : Nat)
  | stream (measure : Except PyErr Nat)

/-- The `tell`/`seek(0, SEEK_END)`/`tell`/`seek(pos)` size measurement in
`convert_to_markdown`. -/
def measureSize : FileContent → Except PyErr Nat
  | .bytes len => .ok len
  | .stream m => m

/-- Python `filename or "unknown"`: `None` and the empty string are both
falsy. -/
def filenameOr : Option String → String
  | none => "unknown"
  | some s => if s = "" then "unknown" else s

/-- `f"{file_size / 1024 / 1024:.1f}"`: the byte count scaled to MB and
formatted to one decimal place (round half to even, computed in exact
rational arithmetic standing in for the IEEE division the source performs).
-/
def fmtMB1 (size : Nat) : String :=
  let n := size * 10
  let d := 1024 * 1024
  let q := n / d
  let r := n % d
  let t :=
    if 2 * r > d then q + 1
    else if 2 * r < d then q
    else if q % 2 = 0 then q else q + 1
  toString (t / 10) ++ "." ++ toString (t % 10)

/-- `f"{self.max_file_size / 1024 / 1024}"` with
`max_file_size = max_file_size_mb * 1024 * 1024`: the division is exact, and
Python's repr of an integer-valued float appends `.0`. -/
def fmtMaxMB (maxMb : Nat) : String :=
  toString maxMb ++ ".0"

/-- The size-limit failure message shared by `convert_to_markdown` and
`convert_file`. -/
def tooLargeMsg (file_size maxMb : Nat) : String :=
  "File too large (" ++ fmtMB1 file_size ++ "MB). Maximum size: " ++
    fmtMaxMB maxMb ++ "MB"

/-- The `MARKITDOWN_AVAILABLE == False` failure message. -/
def availableMsg : String :=
  "Document conversion not available. Install with: pip install markitdown"

/-- `DocumentConverter.is_supported`: false when markitdown is unavailable,
else the MIME detector's verdict. -/
def converter_is_supported (avail : Bool) (mime_type : String) : Bool :=
  if avail = false then false else is_supported mime_type

/-- The `except ImportError` / `except Exception` chain of
`convert_to_markdown`, completing the partially-built `result` dict. -/
def convertHandler (mime_type : String) (base : ConversionResult)
    (e : PyErr) : Except PyErr ConversionResult :=
  match e with
  | .importError m =>
    .ok { base with
      error := some ("Missing dependency for " ++ mime_type ++ ": " ++ m),
      success := false }
  | e =>
    .ok { base with
      error := some ("Conversion failed: " ++ e.str), success := false }

/-- `DocumentConverter.convert_to_markdown`. -/
def convert_to_markdown (avail : Bool) (maxMb : Nat)
    (render : Except PyErr String) (content : FileContent)
    (mime_type : String) (filename : Option String) :
    Except PyErr ConversionResult :=
  let base : ConversionResult :=
    ⟨some mime_type, some (filenameOr filename), false, none, none, none, none⟩
  if avail = false then
    .ok { base with error := some availableMsg, success := false }
  else if converter_is_supported avail mime_type = false then
    .ok { base with
      error := some ("Unsupported file type: " ++ mime_type),
      success := false }
  else
    pyTry
      (match measureSize content with
       | .error e => .error e
       | .ok file_size =>
         if file_size > maxMb * 1024 * 1024 then
           .ok { base with
             error := some (tooLargeMsg file_size maxMb), success := false }
         else
           match render with
           | .error e => .error e
           | .ok text =>
             .ok { base with
               markdown := some text, success := true,
               size_bytes := some file_size })
      (convertHandler mime_type base)

/-- `pathlib.PurePosixPath(p).name`: the final path component, with empty
and `.` segments dropped (`..` segments are kept). -/
def pathName (p : String) : String :=
  let parts := (splitChar '/' p.data).filter
    (fun c => c ≠ ([] : List Char) ∧ c ≠ ['.'])
  String.mk (parts.getLastD [])

/-- `pathlib.PurePosixPath(p).suffix`: `name[i:]` for `i = name.rfind('.')`
when `0 < i < len(name) - 1`, else the empty string. -/
def pathSuffix (p : String) : String :=
  let name := (pathName p).data
  let n := name.length
  match name.reverse.findIdx? (fun c => c = '.') with
  | none => ""
  | some j =>
    let i := n - 1 - j
    if 0 < i ∧ i < n - 1 then String.mk (name.drop i) else ""

/-- The filesystem's behaviour at one concrete path, as `convert_file`
observes it: `Path.exists()` and `Path.is_file()` return booleans (they
swallow `OSError` internally), while `Path.stat()` and `open(..., 'rb')`
may raise. -/
structure FileOracle where
  pathExists : Bool
  isFile : Bool
  statSize : Except PyErr Nat
  openFile : Except PyErr FileContent

/-- The `except PermissionError` / `except FileNotFoundError` /
`except Exception` chain of `convert_file`. -/
def convertFileHandler (name : String) (e : PyErr) :
    Except PyErr ConversionResult :=
  match e with
  | .permissionError m =>
    .ok ⟨none, some name, false, none,
      some ("Permission denied: " ++ m), none, none⟩
  | .fileNotFoundError m =>
    .ok ⟨none, some name, false, none,
      some ("File not found: " ++ m), none, none⟩
  | e =>
    .ok ⟨none, some name, false, none,
      some ("Failed to read file: " ++ e.str), none, none⟩

/-- `DocumentConverter.convert_file`. -/
def convert_file (avail : Bool) (maxMb : Nat)
    (sysTable : String → Option String) (fo : FileOracle)
    (render : Except PyErr String) (file_path : String) :
    Except PyErr ConversionResult :=
  let name := pathName file_path
  if fo.pathExists = false then
    .ok ⟨none, some name, false, none,
      some ("File does not exist: " ++ file_path), none, none⟩
  else if fo.isFile = false then
    .ok ⟨none, some name, false, none,
      some ("Path is not a file: " ++ file_path), none, none⟩
  else
    let mime_type := detect_from_extension sysTable
      (pyLower (pathSuffix file_path))
    pyTry
      (match fo.statSize with
       | .error e => .error e
       | .ok file_size =>
         if file_size > maxMb * 1024 * 1024 then
           .ok ⟨none, some name, false, none,
             some (tooLargeMsg file_size maxMb), none, none⟩
         else
           match fo.openFile with
           | .error e => .error e
           | .ok f =>
             convert_to_markdown avail maxMb render f mime_type (some name))
      (convertFileHandler name)

/-! ## Access guard and `read_file` tool
(`mcp_server.py`, `JiraMcpServer._tool_read_file`) -/

/-- What the filesystem holds at a path, as the guard's
`path_obj.exists() and not path_obj.is_file()` test observes it. -/
inductive FsEntry where
  | absent
  | file
  | other
deriving DecidableEq, Repr

/-- The guard's path-traversal denial message. -/
def traversalDenyMsg : String :=
  "Invalid file path - parent directory access not allowed"

/-- The guard's absolute-path denial message. -/
def absoluteDenyMsg : String :=
  "Absolute file paths outside allowed directories are not permitted"

/-- The guard's non-regular-file denial message. -/
def notRegularFileMsg : String :=
  "Path is not a regular file"

/-- The `{"error": ..., "success": False, "file_path": file_path}` dict the
guard returns on denial; `file_path` is the caller's original string. -/
def denyResult (msg file_path : String) : ConversionResult :=
  ⟨none, none, false, none, some msg, none, some file_path⟩

/-- `allowed_prefixes` in `_tool_read_file`: `'/tmp/'`, `'/var/tmp/'`,
`os.path.expanduser('~/Downloads/')` and `os.getcwd()` (the latter two are
environment-dependent and passed in). -/
def allowed_prefixes (downloads cwd : String) : List String :=
  ["/tmp/", "/var/tmp/", downloads, cwd]

/-- `JiraMcpServer._tool_read_file`: normalize, deny `..`-prefixed paths,
deny absolute paths outside `allowed_prefixes`, deny existing non-regular
files, otherwise convert the normalized path (`conv` is
`doc_converter.convert_file_async`, which may raise; the surrounding
`try/except Exception` boxes any such fault). -/
def tool_read_file (downloads cwd : String) (fs : String → FsEntry)
    (conv : String → Except PyErr ConversionResult) (file_path : String) :
    ConversionResult :=
  let normalized_path := normpath file_path
  if pyStartsWith ".." normalized_path then
    denyResult traversalDenyMsg file_path
  else if isabs normalized_path &&
      !((allowed_prefixes downloads cwd).any
        (fun pre => pyStartsWith pre normalized_path)) then
    denyResult absoluteDenyMsg file_path
  else if fs normalized_path = FsEntry.other then
    denyResult notRegularFileMsg file_path
  else
    match conv normalized_path with
    | .ok r => { r with file_path := some normalized_path }
    | .error e =>
      ⟨none, none, false, none,
        some ("Unexpected error processing file: " ++ e.str), none,
        some file_path⟩

/-! ## Tool dispatch (`JiraMcpServer._handle_call_tool`) -/

/-- A dispatch outcome serialized to the protocol: either
`json.dumps(result)` of the handler's dict, or the
`{"error", "tool", "arguments"}` payload built by the outer catch-all.
`Json` stands for the serialized dictionary values. -/
inductive CallToolReply (Json : Type) where
  | result (payload : Json)
  | errorPayload (error : String) (tool : String) (arguments : Json)
deriving DecidableEq

/-- The dispatch core of `_handle_call_tool` once a handler has been looked
up and any `jira_` client initialization has already run: `await` the
handler inside `try`, boxing any exception into the error payload. -/
def handle_call_tool (Json : Type) (name : String) (arguments : Json)
    (handler : Except PyErr Json) : Except PyErr (CallToolReply Json) :=
  match handler with
  | .ok result => .ok (.result result)
  | .error e => .ok (.errorPayload e.str name arguments)

/-! ## Spec-side wording and concrete fixtures -/

/-- The spec's phrase "the substring of m before the first `/`" (used to
compare against the code's `split('/')[0]`). -/
def substrBeforeSlash (m : String) : String :=
  String.mk (m.data.takeWhile (fun c => c ≠ '/'))

/-- Fixture: a concrete `os.getcwd()` value. -/
def cwd0 : String := "/home/user/agentsb"

/-- Fixture: a concrete `os.path.expanduser('~/Downloads/')` value. -/
def downloads0 : String := "/home/user/Downloads/"

/-- Fixture: an exception no modelled call site actually reaches. -/
def errUnused : PyErr := PyErr.otherError "unused"

/-- Fixture: a filesystem with no entry anywhere. -/
def fsAbsent : String → FsEntry := fun _ => FsEntry.absent

/-- Fixture: a filesystem with a regular file at every path. -/
def fsFile : String → FsEntry := fun _ => FsEntry.file

/-- Fixture: a filesystem with a directory (non-regular entry) at every
path. -/
def fsOther : String → FsEntry := fun _ => FsEntry.other

/-- Fixture: a conversion service the test never expects to be called. -/
def convUnused : String → Except PyErr ConversionResult :=
  fun _ => Except.error errUnused

/-- Fixture: a successful conversion payload. -/
def sampleResult : ConversionResult :=
  ⟨some "application/pdf", some "report.pdf", true, some "# md", none,
    some 10, none⟩

/-- Fixture: a conversion service returning `sampleResult` everywhere. -/
def convSample : String → Except PyErr ConversionResult :=
  fun _ => Except.ok sampleResult

/-- Fixture: the file oracle for a path with no filesystem entry. -/
def foMissing : FileOracle :=
  ⟨false, false, Except.error errUnused, Except.error errUnused⟩

/-- Fixture: a system MIME table knowing only `.pdf`. -/
def sysPdf : String → Option String :=
  fun e => if e = ".pdf" then some "application/pdf" else none

/-- Fixture: the result of successfully converting 4 in-memory bytes of
`text/plain` with a renderer that yields `"# text"`. -/
def mdOkResult : ConversionResult :=
  ⟨some "text/plain", some "unknown", true, some "# text", none, some 4,
    none⟩

/-! ## Sanity checks of the embedding on concrete inputs -/

example : normpath "../../../etc/passwd" = "../../../etc/passwd" := by decide
example : normpath "folder/../../../etc/passwd" = "../../etc/passwd" := by
  decide
example : normpath "./document.pdf" = "document.pdf" := by decide
example : normpath "data/files/document.pdf" = "data/files/document.pdf" := by
  decide
example : normpath "/etc/passwd" = "/etc/passwd" := by decide
example : normpath "a//b/./c/d/../e" = "a/b/c/e" := by decide
example : normpath "" = "." := by decide
example : normpath "//x" = "//x" := by decide
example : normpath "///x" = "/x" := by decide
example : normpath "/.." = "/" := by decide

example : is_supported "application/pdf" = true := by decide
example : is_supported "text/x-rst" = true := by decide
example : is_supported "image/webp" = true := by decide
example : is_supported "video/mp4" = false := by decide
example : is_supported "application/x-totally-unknown" = false := by decide

example :
    detect_from_extension (fun _ => none) ".docx" =
      "application/vnd.openxmlformats-officedocument.wordprocessingml.document" := by
  decide
example :
    detect_from_extension (fun _ => none) ".doc" =
      "application/octet-stream" := by decide
example :
    detect_from_extension
      (fun e => if e = ".pdf" then some "application/pdf" else none) ".pdf" =
      "application/pdf" := by decide

example : pathName "data/files/report.pdf" = "report.pdf" := by decide
example : pathSuffix "data/files/report.pdf" = ".pdf" := by decide
example : pathSuffix "archive.tar.gz" = ".gz" := by decide
example : pathSuffix ".bashrc" = "" := by decide
example : pathSuffix "noext" = "" := by decide
example : fmtMB1 1048577 = "1.0" := by decide
example : fmtMB1 52428800 = "50.0" := by decide
example : fmtMB1 157286400 = "150.0" := by decide

/-! ## Helper lemmas -/

/-- Whatever the `try` body does, a handler that always returns normally
makes `pyTry` return normally. -/
theorem pyTry_ok (body : Except PyErr ConversionResult)
    (handler : PyErr → Except PyErr ConversionResult)
    (h : ∀ e, ∃ r, handler e = Except.ok r) :
    ∃ r, pyTry body handler = Except.ok r := by
  cases body with
  | ok r => exact ⟨r, rfl⟩
  | error e => exact h e

/-- The `except` chain of `convert_to_markdown` returns normally on every
exception. -/
theorem convertHandler_ok (mime_type : String) (base : ConversionResult)
    (e : PyErr) : ∃ r, convertHandler mime_type base e = Except.ok r := by
  cases e <;> exact ⟨_, rfl⟩

/-- The `except` chain of `convert_file` returns normally on every
exception. -/
theorem convertFileHandler_ok (name : String) (e : PyErr) :
    ∃ r, convertFileHandler name e = Except.ok r := by
  cases e <;> exact ⟨_, rfl⟩

/-- The guard's absolute-path branch: an absolute normalized path matching
none of the four allow-list roots is denied. -/
theorem tool_deny_absolute (downloads cwd : String) (fs : String → FsEntry)
    (conv : String → Except PyErr ConversionResult) (p : String)
    (h1 : pyStartsWith ".." (normpath p) = false)
    (h2 : isabs (normpath p) = true)
    (h3 : pyStartsWith "/tmp/" (normpath p) = false)
    (h4 : pyStartsWith "/var/tmp/" (normpath p) = false)
    (h5 : pyStartsWith downloads (normpath p) = false)
    (h6 : pyStartsWith cwd (normpath p) = false) :
    tool_read_file downloads cwd fs conv p = denyResult absoluteDenyMsg p := by
  unfold tool_read_file
  simp [h1, h2, h3, h4, h5, h6, allowed_prefixes]

/-- The guard's regular-file branch: a path past the first two checks whose
normalized form names an existing non-regular entry is denied. -/
theorem tool_deny_not_regular (downloads cwd : String)
    (fs : String → FsEntry)
    (conv : String → Except PyErr ConversionResult) (p : String)
    (h1 : pyStartsWith ".." (normpath p) = false)
    (h2 : isabs (normpath p) = false ∨
      pyStartsWith "/tmp/" (normpath p) = true ∨
      pyStartsWith "/var/tmp/" (normpath p) = true ∨
      pyStartsWith downloads (normpath p) = true ∨
      pyStartsWith cwd (normpath p) = true)
    (h3 : fs (normpath p) = FsEntry.other) :
    tool_read_file downloads cwd fs conv p =
      denyResult notRegularFileMsg p := by
  unfold tool_read_file
  rcases h2 with h2 | h2 | h2 | h2 | h2 <;>
    simp [h1, h2, h3, allowed_prefixes]

/-- The guard's allow path: a path passing every check is handed to the
conversion service under its normalized form, and the normalized path is
recorded in the result. -/
theorem tool_allows (downloads cwd : String) (fs : String → FsEntry)
    (conv : String → Except PyErr ConversionResult) (p : String)
    (r : ConversionResult)
    (h1 : pyStartsWith ".." (normpath p) = false)
    (h2 : (isabs (normpath p) &&
      !((allowed_prefixes downloads cwd).any
        (fun pre => pyStartsWith pre (normpath p)))) = false)
    (h3 : fs (normpath p) ≠ FsEntry.other)
    (h4 : conv (normpath p) = Except.ok r) :
    tool_read_file downloads cwd fs conv p =
      { r with file_path := some (normpath p) } := by
  unfold tool_read_file
  simp [h1, h2, h3, h4]

/-- `splitChar` never returns the empty list (Python's `str.split` always
yields at least one piece). -/
theorem splitChar_ne_nil (sep : Char) (l : List Char) :
    splitChar sep l ≠ [] := by
  induction l with
  | nil => simp [splitChar]
  | cons c t ih =>
    simp only [splitChar]
    split
    · simp
    · split
      · simp
      · simp

/-- The first piece of `str.split(sep)` is the longest separator-free
prefix. -/
theorem splitChar_headD (sep : Char) (l : List Char) :
    (splitChar sep l).headD [] = l.takeWhile (fun c => c ≠ sep) := by
  induction l with
  | nil => simp [splitChar]
  | cons c t ih =>
    by_cases hc : c = sep
    · simp [splitChar, hc]
    · have hne := splitChar_ne_nil sep t
      cases h : splitChar sep t with
      | nil => exact absurd h hne
      | cons a b =>
        rw [h] at ih
        simp only [List.headD] at ih
        simp [splitChar, hc, h, List.takeWhile_cons, ih]

/-- The code's `mime_type.split('/')[0]` agrees with the spec's "substring
of the type before the first `/`". -/
theorem baseType_eq_substrBeforeSlash (m : String) :
    baseType m = substrBeforeSlash m := by
  unfold baseType substrBeforeSlash
  rw [splitChar_headD]

/-- Every result `convert_to_markdown` returns carries exactly one of
markdown/error, its byte size exactly on success, and always the MIME type
and a filename. -/
theorem convert_to_markdown_shape (avail : Bool) (maxMb : Nat)
    (render : Except PyErr String) (content : FileContent)
    (mime_type : String) (filename : Option String) (r : ConversionResult)
    (h : convert_to_markdown avail maxMb render content mime_type filename =
      Except.ok r) :
    ((r.markdown.isSome = true ∧ r.error.isSome = false) ∨
      (r.markdown.isSome = false ∧ r.error.isSome = true)) ∧
    r.size_bytes.isSome = r.success ∧
    r.mime_type = some mime_type ∧
    r.filename.isSome = true := by
  simp only [convert_to_markdown] at h
  split at h
  · cases h
    simp
  split at h
  · cases h
    simp
  simp only [pyTry] at h
  split at h
  next val heq =>
    cases h
    split at heq
    · cases heq
    split at heq
    · cases heq
      simp
    split at heq
    · cases heq
    · cases heq
      simp
  next e heq =>
    simp only [convertHandler] at h
    split at h
    · cases h
      simp
    · cases h
      simp

/-- Every result `convert_file` returns carries exactly one of
markdown/error, its byte size exactly on success, and always a filename. -/
theorem convert_file_shape (avail : Bool) (maxMb : Nat)
    (sysTable : String → Option String) (fo : FileOracle)
    (render : Except PyErr String) (file_path : String)
    (r : ConversionResult)
    (h : convert_file avail maxMb sysTable fo render file_path =
      Except.ok r) :
    ((r.markdown.isSome = true ∧ r.error.isSome = false) ∨
      (r.markdown.isSome = false ∧ r.error.isSome = true)) ∧
    r.size_bytes.isSome = r.success ∧
    r.filename.isSome = true := by
  simp only [convert_file] at h
  split at h
  · cases h
    simp
  split at h
  · cases h
    simp
  simp only [pyTry] at h
  split at h
  next val heq =>
    cases h
    split at heq
    · cases heq
    split at heq
    · cases heq
      simp
    split at heq
    · cases heq
    · have hs := convert_to_markdown_shape _ _ _ _ _ _ _ heq
      exact ⟨hs.1, hs.2.1, hs.2.2.2⟩
  next e heq =>
    simp only [convertFileHandler] at h
    split at h
    · cases h
      simp
    · cases h
      simp
    · cases h
      simp

/-! ## Claim theorems -/

/-- C10: for every tool name and argument bag, a handler that raises is
turned by the dispatch layer's outer catch-all into an
`{error, tool, arguments}` payload, and the dispatch itself never raises. -/
theorem C10_dispatch_catch_all :
    (∀ (Json : Type) (name : String) (arguments : Json)
      (handler : Except PyErr Json),
      ∃ reply, handle_call_tool Json name arguments handler =
        Except.ok reply) ∧
    (∀ (Json : Type) (name : String) (arguments : Json) (e : PyErr),
      handle_call_tool Json name arguments (Except.error e) =
        Except.ok (CallToolReply.errorPayload e.str name arguments)) := by
  constructor
  · intro Json name arguments handler
    cases handler <;> exact ⟨_, rfl⟩
  · intro Json name arguments e
    rfl

/-- C1 counterexample: the guard does deny `../../../etc/passwd`, but the
denial reason it produces is
`"Invalid file path - parent directory access not allowed"`, not the
claimed `"path traversal — parent directory access not allowed"`. -/
theorem C1_counterexample :
    tool_read_file downloads0 cwd0 fsAbsent convUnused
      "../../../etc/passwd" =
      denyResult traversalDenyMsg "../../../etc/passwd" ∧
    traversalDenyMsg ≠
      "path traversal — parent directory access not allowed" := by
  constructor
  · decide
  · decide

/-- C1 (amended): whenever the normalized form of the input path starts with
`..`, the `read_file` tool denies the request with reason
"Invalid file path - parent directory access not allowed" and never calls
the conversion service (the outcome is the same for every `conv`); the two
traversal examples are denied by this check and the three benign examples
pass it. -/
theorem C1_traversal_denied :
    (∀ (downloads cwd : String) (fs : String → FsEntry)
      (conv : String → Except PyErr ConversionResult) (p : String),
      pyStartsWith ".." (normpath p) = true →
      tool_read_file downloads cwd fs conv p =
        denyResult traversalDenyMsg p) ∧
    pyStartsWith ".." (normpath "../../../etc/passwd") = true ∧
    pyStartsWith ".." (normpath "folder/../../../etc/passwd") = true ∧
    pyStartsWith ".." (normpath "document.pdf") = false ∧
    pyStartsWith ".." (normpath "./document.pdf") = false ∧
    pyStartsWith ".." (normpath "data/files/document.pdf") = false := by
  refine ⟨?_, by decide, by decide, by decide, by decide, by decide⟩
  intro downloads cwd fs conv p h
  unfold tool_read_file
  simp [h]

/-- C1 witness: the amended theorem applied to `../../../etc/passwd` in a
concrete environment. -/
theorem C1_traversal_denied_witness :
    tool_read_file downloads0 cwd0 fsAbsent convUnused
      "../../../etc/passwd" =
      denyResult traversalDenyMsg "../../../etc/passwd" :=
  C1_traversal_denied.1 downloads0 cwd0 fsAbsent convUnused
    "../../../etc/passwd" (by decide)

/-- C2: an absolute normalized path is denied with
"Absolute file paths outside allowed directories are not permitted" unless
it starts with one of exactly the four allow-list roots `/tmp/`,
`/var/tmp/`, the downloads directory, or the current working directory
(first conjunct, which also shows the conversion service is not consulted);
a path past those checks naming an existing non-regular entry is denied
with "Path is not a regular file" (second conjunct); in the concrete
environment `/etc/passwd` is denied while an absolute path under the
current working directory reaches the conversion service (last two
conjuncts). -/
theorem C2_absolute_allowlist :
    (∀ (downloads cwd : String) (fs : String → FsEntry)
      (conv : String → Except PyErr ConversionResult) (p : String),
      pyStartsWith ".." (normpath p) = false →
      isabs (normpath p) = true →
      pyStartsWith "/tmp/" (normpath p) = false →
      pyStartsWith "/var/tmp/" (normpath p) = false →
      pyStartsWith downloads (normpath p) = false →
      pyStartsWith cwd (normpath p) = false →
      tool_read_file downloads cwd fs conv p =
        denyResult absoluteDenyMsg p) ∧
    (∀ (downloads cwd : String) (fs : String → FsEntry)
      (conv : String → Except PyErr ConversionResult) (p : String),
      pyStartsWith ".." (normpath p) = false →
      (isabs (normpath p) = false ∨
        pyStartsWith "/tmp/" (normpath p) = true ∨
        pyStartsWith "/var/tmp/" (normpath p) = true ∨
        pyStartsWith downloads (normpath p) = true ∨
        pyStartsWith cwd (normpath p) = true) →
      fs (normpath p) = FsEntry.other →
      tool_read_file downloads cwd fs conv p =
        denyResult notRegularFileMsg p) ∧
    (∀ (fs : String → FsEntry)
      (conv : String → Except PyErr ConversionResult),
      tool_read_file downloads0 cwd0 fs conv "/etc/passwd" =
        denyResult absoluteDenyMsg "/etc/passwd") ∧
    (∀ (conv : String → Except PyErr ConversionResult)
      (r : ConversionResult),
      conv "/home/user/agentsb/docs/report.pdf" = Except.ok r →
      tool_read_file downloads0 cwd0 fsFile conv
        "/home/user/agentsb/docs/report.pdf" =
        { r with file_path := some "/home/user/agentsb/docs/report.pdf" }) := by
  refine ⟨tool_deny_absolute, tool_deny_not_regular, ?_, ?_⟩
  · intro fs conv
    exact tool_deny_absolute downloads0 cwd0 fs conv "/etc/passwd"
      (by decide) (by decide) (by decide) (by decide) (by decide) (by decide)
  · intro conv r h
    exact tool_allows downloads0 cwd0 fsFile conv
      "/home/user/agentsb/docs/report.pdf" r (by decide) (by decide)
      (by decide) h

/-- C2 witness: the first conjunct at `/etc/passwd` and the second at a
directory under `/tmp/`, in a concrete environment. -/
theorem C2_absolute_allowlist_witness :
    tool_read_file downloads0 cwd0 fsAbsent convUnused "/etc/passwd" =
      denyResult absoluteDenyMsg "/etc/passwd" ∧
    tool_read_file downloads0 cwd0 fsOther convUnused "/tmp/somedir" =
      denyResult notRegularFileMsg "/tmp/somedir" :=
  ⟨C2_absolute_allowlist.1 downloads0 cwd0 fsAbsent convUnused "/etc/passwd"
      (by decide) (by decide) (by decide) (by decide) (by decide) (by decide),
    C2_absolute_allowlist.2.1 downloads0 cwd0 fsOther convUnused
      "/tmp/somedir" (by decide) (Or.inr (Or.inl (by decide))) rfl⟩

/-- C3: the allow-list test is a plain string-prefix comparison and the
`os.getcwd()` entry carries no trailing separator, so the sibling path
`/home/user/agentsb-backup/secret.txt` — already normalized, different from
the cwd `/home/user/agentsb`, not under `<cwd>/` nor under any other
allow-list root, yet sharing the cwd string as a prefix — is admitted by
the guard and handed to the conversion service. -/
theorem C3_cwd_prefix_bypass :
    normpath "/home/user/agentsb-backup/secret.txt" =
      "/home/user/agentsb-backup/secret.txt" ∧
    "/home/user/agentsb-backup/secret.txt" ≠ cwd0 ∧
    pyStartsWith (cwd0 ++ "/") "/home/user/agentsb-backup/secret.txt" =
      false ∧
    pyStartsWith "/tmp/" "/home/user/agentsb-backup/secret.txt" = false ∧
    pyStartsWith "/var/tmp/" "/home/user/agentsb-backup/secret.txt" =
      false ∧
    pyStartsWith downloads0 "/home/user/agentsb-backup/secret.txt" = false ∧
    pyStartsWith cwd0 "/home/user/agentsb-backup/secret.txt" = true ∧
    ∀ (conv : String → Except PyErr ConversionResult)
      (r : ConversionResult),
      conv "/home/user/agentsb-backup/secret.txt" = Except.ok r →
      tool_read_file downloads0 cwd0 fsFile conv
        "/home/user/agentsb-backup/secret.txt" =
        { r with
          file_path := some "/home/user/agentsb-backup/secret.txt" } := by
  refine ⟨by decide, by decide, by decide, by decide, by decide, by decide,
    by decide, ?_⟩
  intro conv r h
  exact tool_allows downloads0 cwd0 fsFile conv
    "/home/user/agentsb-backup/secret.txt" r (by decide) (by decide)
    (by decide) h

/-- C3 witness: a concrete conversion service observes the bypassed path. -/
theorem C3_cwd_prefix_bypass_witness :
    tool_read_file downloads0 cwd0 fsFile convSample
      "/home/user/agentsb-backup/secret.txt" =
      { sampleResult with
        file_path := some "/home/user/agentsb-backup/secret.txt" } :=
  C3_cwd_prefix_bypass.2.2.2.2.2.2.2 convSample sampleResult rfl

/-- C7: `is_supported` holds exactly for the enumerated exact types and for
any type whose portion before the first `/` is `text` or `image`;
unenumerated `text/*` and `image/*` subtypes are accepted, `video/mp4` is
not. -/
theorem C7_is_supported_iff :
    (∀ m : String, is_supported m = true ↔
      (m ∈ SUPPORTED_MIME_TYPES ∨ substrBeforeSlash m = "text" ∨
        substrBeforeSlash m = "image")) ∧
    is_supported "video/mp4" = false ∧
    is_supported "text/vnd.unlisted" = true ∧
    is_supported "image/x-unlisted" = true := by
  refine ⟨fun m => ?_, by decide, by decide, by decide⟩
  unfold is_supported
  by_cases hm : m ∈ SUPPORTED_MIME_TYPES
  · simp [hm]
  · simp [hm, baseType_eq_substrBeforeSlash, SUPPORTED_BASE_TYPES]

/-- C8 counterexample: the hard-coded fallback table does not cover the
legacy `.doc` extension — when the system table misses, `.doc` resolves to
the generic `application/octet-stream`, not `application/msword` as the
claimed fallback coverage would require. -/
theorem C8_counterexample :
    detect_from_extension (fun _ => none) ".doc" =
      "application/octet-stream" ∧
    "application/octet-stream" ≠ "application/msword" ∧
    dictGet custom_mappings ".doc" "application/octet-stream" =
      "application/octet-stream" :=
  ⟨by decide, by decide, by decide⟩

/-- C8 (amended): `detect_from_extension` consults the system table first
and returns its hit verbatim; on a system miss it consults the hard-coded
fallback, which covers exactly the three open-XML extensions `.docx`,
`.xlsx`, `.pptx` (not the legacy `.doc`/`.xls`/`.ppt`); when both lookups
miss it returns `application/octet-stream`. -/
theorem C8_detect_from_extension :
    (∀ (sysTable : String → Option String) (ext m : String),
      sysTable ext = some m → detect_from_extension sysTable ext = m) ∧
    (∀ (sysTable : String → Option String) (ext : String),
      sysTable ext = none →
      detect_from_extension sysTable ext =
        dictGet custom_mappings (pyLower ext) "application/octet-stream") ∧
    detect_from_extension (fun _ => none) ".docx" =
      "application/vnd.openxmlformats-officedocument.wordprocessingml.document" ∧
    detect_from_extension (fun _ => none) ".xlsx" =
      "application/vnd.openxmlformats-officedocument.spreadsheetml.sheet" ∧
    detect_from_extension (fun _ => none) ".pptx" =
      "application/vnd.openxmlformats-officedocument.presentationml.presentation" ∧
    (∀ (sysTable : String → Option String) (ext : String),
      sysTable ext = none →
      pyLower ext ≠ ".docx" → pyLower ext ≠ ".xlsx" → pyLower ext ≠ ".pptx" →
      detect_from_extension sysTable ext = "application/octet-stream") := by
  refine ⟨?_, ?_, by decide, by decide, by decide, ?_⟩
  · intro sysTable ext m h
    unfold detect_from_extension
    rw [h]
  · intro sysTable ext h
    unfold detect_from_extension
    rw [h]
  · intro sysTable ext h h1 h2 h3
    unfold detect_from_extension
    rw [h]
    simp [dictGet, custom_mappings, List.find?, Ne.symm h1, Ne.symm h2,
      Ne.symm h3]

/-- C4: for every input and every behaviour of the content stream, the
filesystem and the rendering engine — including any of them raising —
`convert_to_markdown` and `convert_file` return a structured result and
never propagate an exception. -/
theorem C4_no_exception_escapes :
    (∀ (avail : Bool) (maxMb : Nat) (render : Except PyErr String)
      (content : FileContent) (mime_type : String)
      (filename : Option String),
      ∃ r, convert_to_markdown avail maxMb render content mime_type
        filename = Except.ok r) ∧
    (∀ (avail : Bool) (maxMb : Nat) (sysTable : String → Option String)
      (fo : FileOracle) (render : Except PyErr String)
      (file_path : String),
      ∃ r, convert_file avail maxMb sysTable fo render file_path =
        Except.ok r) := by
  constructor
  · intro avail maxMb render content mime_type filename
    unfold convert_to_markdown
    split
    · exact ⟨_, rfl⟩
    split
    · exact ⟨_, rfl⟩
    exact pyTry_ok _ _ (convertHandler_ok _ _)
  · intro avail maxMb sysTable fo render file_path
    unfold convert_file
    split
    · exact ⟨_, rfl⟩
    split
    · exact ⟨_, rfl⟩
    exact pyTry_ok _ _ (convertFileHandler_ok _)

/-- C5: a supported payload measuring strictly more than
`maxMb * 1024 * 1024` bytes makes `convert_to_markdown` fail with a message
carrying both the actual and the maximum size in MB, without the renderer
influencing the outcome (first conjunct: the result is the same for every
`render`); the message contains both formatted sizes (second conjunct); a
payload of exactly the limit is not rejected for size (third conjunct). -/
theorem C5_size_limit :
    (∀ (maxMb : Nat) (render : Except PyErr String) (content : FileContent)
      (mime_type : String) (filename : Option String) (file_size : Nat),
      is_supported mime_type = true →
      measureSize content = Except.ok file_size →
      file_size > maxMb * 1024 * 1024 →
      convert_to_markdown true maxMb render content mime_type filename =
        Except.ok ⟨some mime_type, some (filenameOr filename), false, none,
          some (tooLargeMsg file_size maxMb), none, none⟩) ∧
    (∀ file_size maxMb : Nat,
      List.IsInfix (fmtMB1 file_size).data
        (tooLargeMsg file_size maxMb).data ∧
      List.IsInfix (fmtMaxMB maxMb).data
        (tooLargeMsg file_size maxMb).data) ∧
    (∀ (maxMb : Nat) (render : Except PyErr String) (content : FileContent)
      (mime_type : String) (filename : Option String) (text : String),
      is_supported mime_type = true →
      measureSize content = Except.ok (maxMb * 1024 * 1024) →
      render = Except.ok text →
      convert_to_markdown true maxMb render content mime_type filename =
        Except.ok ⟨some mime_type, some (filenameOr filename), true,
          some text, none, some (maxMb * 1024 * 1024), none⟩) := by
  refine ⟨?_, ?_, ?_⟩
  · intro maxMb render content mime_type filename file_size hs hm hgt
    unfold convert_to_markdown pyTry
    simp [converter_is_supported, hs, hm, hgt]
  · intro file_size maxMb
    constructor
    · exact ⟨"File too large (".data,
        ("MB). Maximum size: " ++ fmtMaxMB maxMb ++ "MB").data,
        by simp [tooLargeMsg, String.data_append]⟩
    · exact ⟨("File too large (" ++ fmtMB1 file_size ++
          "MB). Maximum size: ").data, "MB".data,
        by simp [tooLargeMsg, String.data_append]⟩
  · intro maxMb render content mime_type filename text hs hm hr
    unfold convert_to_markdown pyTry
    simp [converter_is_supported, hs, hm, hr]

/-- C5 witness: with a 1 MB ceiling, a supported payload of 1 MB + 1 byte
is rejected with the size message (the renderer argument is an unused
stub), and the message carries both formatted sizes. -/
theorem C5_size_limit_witness :
    convert_to_markdown true 1 (Except.error errUnused)
      (FileContent.bytes 1048577) "application/pdf" none =
      Except.ok ⟨some "application/pdf", some (filenameOr none), false,
        none, some (tooLargeMsg 1048577 1), none, none⟩ ∧
    List.IsInfix (fmtMB1 1048577).data (tooLargeMsg 1048577 1).data :=
  ⟨C5_size_limit.1 1 (Except.error errUnused) (FileContent.bytes 1048577)
      "application/pdf" none 1048577 (by decide) rfl (by decide),
    (C5_size_limit.2.1 1048577 1).1⟩

/-- C6: an unsupported MIME type makes `convert_to_markdown` fail with an
"Unsupported file type" message, with an outcome identical for every
content and every renderer — so neither the size measurement nor the
rendering capability is consulted. -/
theorem C6_unsupported_rejected :
    (∀ (maxMb : Nat) (render : Except PyErr String) (content : FileContent)
      (mime_type : String) (filename : Option String),
      is_supported mime_type = false →
      convert_to_markdown true maxMb render content mime_type filename =
        Except.ok ⟨some mime_type, some (filenameOr filename), false, none,
          some ("Unsupported file type: " ++ mime_type), none, none⟩) ∧
    (∀ mime_type : String,
      List.IsInfix "Unsupported file type".data
        ("Unsupported file type: " ++ mime_type).data) := by
  constructor
  · intro maxMb render content mime_type filename hs
    unfold convert_to_markdown
    simp [converter_is_supported, hs]
  · intro mime_type
    exact ⟨[], (": " ++ mime_type).data, by simp [String.data_append]⟩

/-- C6 witness: `application/x-totally-unknown` is rejected before any
size or rendering work, the content and renderer being unused stubs. -/
theorem C6_unsupported_rejected_witness :
    convert_to_markdown true 50 (Except.error errUnused)
      (FileContent.stream (Except.error errUnused))
      "application/x-totally-unknown" none =
      Except.ok ⟨some "application/x-totally-unknown",
        some (filenameOr none), false, none,
        some ("Unsupported file type: " ++ "application/x-totally-unknown"),
        none, none⟩ :=
  C6_unsupported_rejected.1 50 (Except.error errUnused)
    (FileContent.stream (Except.error errUnused))
    "application/x-totally-unknown" none (by decide)

/-- C9 counterexample: a `convert_file` failure result for a nonexistent
path carries no MIME-type field at all (`mime_type = none`), refuting "the
original MIME type … always present" for `convert_file`. -/
theorem C9_counterexample :
    convert_file true 50 (fun _ => none) foMissing (Except.error errUnused)
      "missing.txt" =
      Except.ok ⟨none, some "missing.txt", false, none,
        some "File does not exist: missing.txt", none, none⟩ ∧
    (⟨none, some "missing.txt", false, none,
        some "File does not exist: missing.txt", none, none⟩ :
      ConversionResult).mime_type = none := by
  exact ⟨rfl, rfl⟩

/-- C9 (amended): every result of `convert_to_markdown` populates exactly
one of markdown/error, carries its byte size exactly when successful, and
always carries the MIME type and a filename; every result of
`convert_file` satisfies the same invariants except that its own failure
paths carry no MIME-type field (only the filename is always present). -/
theorem C9_result_shape :
    (∀ (avail : Bool) (maxMb : Nat) (render : Except PyErr String)
      (content : FileContent) (mime_type : String)
      (filename : Option String) (r : ConversionResult),
      convert_to_markdown avail maxMb render content mime_type filename =
        Except.ok r →
      ((r.markdown.isSome = true ∧ r.error.isSome = false) ∨
        (r.markdown.isSome = false ∧ r.error.isSome = true)) ∧
      r.size_bytes.isSome = r.success ∧
      r.mime_type = some mime_type ∧
      r.filename.isSome = true) ∧
    (∀ (avail : Bool) (maxMb : Nat) (sysTable : String → Option String)
      (fo : FileOracle) (render : Except PyErr String) (file_path : String)
      (r : ConversionResult),
      convert_file avail maxMb sysTable fo render file_path =
        Except.ok r →
      ((r.markdown.isSome = true ∧ r.error.isSome = false) ∨
        (r.markdown.isSome = false ∧ r.error.isSome = true)) ∧
      r.size_bytes.isSome = r.success ∧
      r.filename.isSome = true) :=
  ⟨convert_to_markdown_shape, convert_file_shape⟩

/-- C9 witness: the invariants instantiated on a concrete successful
in-memory conversion. -/
theorem C9_result_shape_witness :
    ((mdOkResult.markdown.isSome = true ∧
        mdOkResult.error.isSome = false) ∨
      (mdOkResult.markdown.isSome = false ∧
        mdOkResult.error.isSome = true)) ∧
    mdOkResult.size_bytes.isSome = mdOkResult.success ∧
    mdOkResult.mime_type = some "text/plain" ∧
    mdOkResult.filename.isSome = true :=
  C9_result_shape.1 true 50 (Except.ok "# text") (FileContent.bytes 4)
    "text/plain" none mdOkResult rfl

/-- C8 witness: a system hit (`.pdf`) is returned verbatim, and an
extension unknown to both tables falls back to the generic binary type. -/
theorem C8_detect_from_extension_witness :
    detect_from_extension sysPdf ".pdf" = "application/pdf" ∧
    detect_from_extension sysPdf ".unknown" = "application/octet-stream" :=
  ⟨C8_detect_from_extension.1 sysPdf ".pdf" "application/pdf" (by decide),
    C8_detect_from_extension.2.2.2.2.2 sysPdf ".unknown" (by decide)
      (by decide) (by decide) (by decide)⟩

end Agentsb
